import Mathlib

/-!
Shallow embedding of the machine-vision-system repository pieces that the
claims concern.

Sources:
* the dashboard page component (the React client in
  src/unnamed/part_001, the revision of src/frontend/src/pages/index.tsx
  whose line numbers the claims cite): its state hooks, the addLog helper,
  the socket event handlers (log_history, log_message, capture_result),
  handleCapture with its test-mode simulation, loadSettings,
  copyLogsToClipboard and saveThreshold;
* the database schema (src/unnamed/part_000): the seeded default settings;
* the middleware REST endpoints, which are not under src/: where a claim
  needs them they are modelled from the spec, and each such definition is
  marked `Modelled from the spec:` in its doc comment.

JavaScript numbers are modelled as rationals; every numeric literal the
code uses (0.5, 0.85, 0.01, 1500) is exactly representable. Timestamps
(new Date().toISOString(), Date.now()) are passed in as parameters since
they are reads of an external clock. React state updates (setX) become
functional record updates on an explicit ClientState.
-/

/-- Rendering of a number with two decimal places, the toFixed 2 calls of
the source, here as rounding to the nearest hundredth, half up. -/
def toFixed2 (q : ℚ) : String :=
  let h : ℤ := (q * 100 + 1 / 2).floor
  (if h < 0 then "-" else "") ++ toString (h.natAbs / 100) ++ "."
    ++ (if h.natAbs % 100 < 10 then "0" else "") ++ toString (h.natAbs % 100)

/-- interface LogMessage: timestamp, level, message, optional module tag. -/
structure LogMessage where
  timestamp : String
  level : String
  message : String
  module : Option String
deriving DecidableEq, Repr

/-- interface CaptureResult: the payload of a capture_result event or of a
synchronous capture response. -/
structure CaptureResult where
  success : Bool
  original_image : String
  processed_image : String
  result : String
  confidence : ℚ
  processed_image_url : Option String
  error : Option String
deriving DecidableEq, Repr

/-- interface BackendStatus. -/
structure BackendStatus where
  camera_connected : Bool
  model_loaded : Bool
deriving DecidableEq, Repr

/-- interface SettingsData.settings: the object holding the configured
confidence threshold. -/
structure SettingsPayload where
  confidence_threshold : ℚ
deriving DecidableEq, Repr

/-- interface SettingsData: wraps the settings object. -/
structure SettingsData where
  settings : SettingsPayload
deriving DecidableEq, Repr

/-- interface ApiResponse T: success flag, optional data payload,
optional error message. -/
structure ApiResponse (α : Type) where
  success : Bool
  data : Option α
  error : Option String
deriving DecidableEq, Repr

/-- The client component state: one field per useState hook of Home, plus
the captureStartTime ref (milliseconds, or none once consumed). -/
structure ClientState where
  isConnected : Bool
  logs : List LogMessage
  isCapturing : Bool
  captureResult : Option CaptureResult
  confidenceThreshold : ℚ
  backendStatus : BackendStatus
  processingTime : Option ℚ
  copySuccess : String
  selectedTab : String
  isTestMode : Bool
  captureStartTime : Option ℚ
deriving DecidableEq, Repr

/-- The useState initial values of Home (and the initially null
captureStartTime ref). -/
def initialClientState : ClientState where
  isConnected := false
  logs := []
  isCapturing := false
  captureResult := none
  confidenceThreshold := 0.5
  backendStatus := { camera_connected := false, model_loaded := false }
  processingTime := none
  copySuccess := ""
  selectedTab := "original"
  isTestMode := false
  captureStartTime := none

/-- addLog: setLogs(prevLogs => [...prevLogs, logMessage]). -/
def addLog (s : ClientState) (m : LogMessage) : ClientState :=
  { s with logs := s.logs ++ [m] }

/-- Sequence of addLog calls, oldest first. -/
def addLogs (s : ClientState) (ms : List LogMessage) : ClientState :=
  ms.foldl addLog s

/-- The log_history socket handler: setLogs(data.logs). -/
def onLogHistory (s : ClientState) (ls : List LogMessage) : ClientState :=
  { s with logs := ls }

/-- The log_message socket handler: addLog(logMessage). -/
def onLogMessage (s : ClientState) (m : LogMessage) : ClientState :=
  addLog s m

/-- The log entry appended by the capture_result handler: level SUCCESS
with the formatted result on success, level ERROR with the error text
otherwise. -/
def captureResultLogEntry (ts : String) (r : CaptureResult) : LogMessage where
  timestamp := ts
  level := if r.success then "SUCCESS" else "ERROR"
  message :=
    if r.success then
      "Capture completed successfully. Result: " ++ r.result
        ++ " (Confidence: " ++ toFixed2 (r.confidence * 100) ++ "%)"
    else
      "Capture failed: " ++ r.error.getD ("Unknown error")
  module := some ("capture")

/-- The capture_result socket handler: record processing time if a capture
start time is pending, store the result, clear isCapturing, then log the
outcome. -/
def onCaptureResult (s : ClientState) (nowMs : ℚ) (ts : String)
    (r : CaptureResult) : ClientState :=
  let s1 :=
    match s.captureStartTime with
    | some start =>
        { s with processingTime := some (nowMs - start),
                 captureStartTime := none }
    | none => s
  let s2 := { s1 with captureResult := some r, isCapturing := false }
  addLog s2 (captureResultLogEntry ts r)

/-- What handleCapture does after mutating state: nothing (early return),
start the test-mode simulation timer, or POST /api/capture with the
current threshold in the body. -/
inductive CaptureAction where
  | noAction : CaptureAction
  | simulate : CaptureAction
  | post : ℚ → CaptureAction
deriving DecidableEq, Repr

/-- The log entry handleCapture appends before issuing any work. -/
def captureInitiatedEntry (ts : String) : LogMessage where
  timestamp := ts
  level := "INFO"
  message := "Initiating image capture and processing"
  module := some ("frontend")

/-- The synchronous prefix of handleCapture: if a capture is already in
flight it returns at once (no state change, no log, no request);
otherwise it sets isCapturing, records the start time, logs the INFO
entry, and either starts the test-mode simulation or posts the capture
request carrying the current confidence threshold. -/
def handleCaptureEnter (s : ClientState) (nowMs : ℚ) (ts : String) :
    ClientState × CaptureAction :=
  if s.isCapturing then (s, CaptureAction.noAction)
  else
    let s1 := { s with isCapturing := true, captureStartTime := some nowMs }
    let s2 := addLog s1 (captureInitiatedEntry ts)
    if s2.isTestMode then (s2, CaptureAction.simulate)
    else (s2, CaptureAction.post s2.confidenceThreshold)

/-- The hard-coded mock CaptureResult built inside the test-mode branch of
handleCapture: always success, verdict PASS, confidence 0.85, placeholder
base64 images. -/
def mockResult : CaptureResult where
  success := true
  original_image := "iVBORw0KGgoAAAANSUhEUgAAASwAAACoCAMAAABt9SM9AAAAA1BMVEX///+nxBvIAAAAR0lEQVR4nO3BAQEAAACCIP+vbkhAAQAAAAAAAAAAAAAAAAAAAAAAAAAAAAAAAAAAAAAAAAAAAAAAAAAAAAAAAAAAAAAAAO8GxYgAAb0jQ/cAAAAASUVORK5CYII="
  processed_image := "iVBORw0KGgoAAAANSUhEUgAAASwAAACoCAMAAABt9SM9AAAAA1BMVEX///+nxBvIAAAAR0lEQVR4nO3BAQEAAACCIP+vbkhAAQAAAAAAAAAAAAAAAAAAAAAAAAAAAAAAAAAAAAAAAAAAAAAAAAAAAAAAAAAAAAAAAO8GxYgAAb0jQ/cAAAAASUVORK5CYII="
  result := "PASS"
  confidence := 0.85
  processed_image_url := none
  error := none

/-- The setTimeout callback of the test-mode branch of handleCapture:
fixed 1500 ms processing time, store mockResult, clear isCapturing, log a
SUCCESS entry. The confidence threshold in the state is never consulted. -/
def simulateCaptureComplete (s : ClientState) (ts : String) : ClientState :=
  let s1 := { s with processingTime := some 1500,
                     captureResult := some mockResult,
                     isCapturing := false }
  addLog s1
    { timestamp := ts
      level := "SUCCESS"
      message := "Test Mode: Simulated capture completed. Result: "
        ++ mockResult.result ++ " (Confidence: "
        ++ toFixed2 (mockResult.confidence * 100) ++ "%)"
      module := some ("capture") }

/-- The handler for a parsed POST /api/capture response body in
handleCapture: on success the body is ignored; on failure isCapturing is
cleared, the start time dropped, and an ERROR entry logged. -/
def onCaptureResponse (s : ClientState) (ts : String)
    (resp : ApiResponse CaptureResult) : ClientState :=
  if resp.success = false then
    addLog { s with isCapturing := false, captureStartTime := none }
      { timestamp := ts
        level := "ERROR"
        message := "Capture request failed: " ++ resp.error.getD ("Unknown error")
        module := some ("frontend") }
  else s

/-- The catch branch of handleCapture: clear isCapturing and the start
time, switch to test mode, log an ERROR entry. -/
def onCaptureException (s : ClientState) (ts : String) (msg : String) :
    ClientState :=
  addLog { s with isCapturing := false, captureStartTime := none,
                  isTestMode := true }
    { timestamp := ts
      level := "ERROR"
      message := "Capture request error: " ++ msg ++ ". Switched to test mode."
      module := some ("frontend") }

/-- A GET /api/settings response body as the client sees it, as a partial
record of the keys either side may place at top level: the success flag,
an optional data object (the shape the client parses), an optional
top-level settings object (the shape the spec documents), an optional
error message. A key absent from the JSON body is none. -/
structure SettingsResponseBody where
  success : Bool
  data : Option SettingsData
  settings : Option SettingsPayload
  error : Option String
deriving DecidableEq, Repr

/-- Modelled from the spec: the middleware GET /api/settings endpoint is
not under src/. Per the spec it answers with the configuration directly
under a top-level settings key, the shape
success together with settings containing confidence_threshold. -/
def specSettingsResponse (v : ℚ) : SettingsResponseBody where
  success := true
  data := none
  settings := some { confidence_threshold := v }
  error := none

/-- The success path of loadSettings: the guard reads
response.data.success and response.data.data?.settings.confidence_threshold,
so the threshold is taken from the data key of the body; a body without a
data key leaves the state unchanged. -/
def loadSettingsOnResponse (s : ClientState) (body : SettingsResponseBody) :
    ClientState :=
  if body.success then
    match body.data with
    | some d =>
        { s with confidenceThreshold := d.settings.confidence_threshold }
    | none => s
  else s

/-- The catch branch of loadSettings: switch to test mode and log an
ERROR entry. -/
def loadSettingsOnError (s : ClientState) (ts : String) : ClientState :=
  addLog { s with isTestMode := true }
    { timestamp := ts
      level := "ERROR"
      message := "Failed to load settings. Switched to test mode."
      module := some ("frontend") }

/-- The then branch of the clipboard write in copyLogsToClipboard:
setCopySuccess of the copied marker (the timed reset is a later event). -/
def copyLogsOnSuccess (s : ClientState) : ClientState :=
  { s with copySuccess := "Copied!" }

/-- The catch branch of the clipboard write in copyLogsToClipboard: the
source only calls console.error, so the component state, the log list
included, is left unchanged. -/
def copyLogsOnFailure (s : ClientState) : ClientState := s

/-- Outcome of an awaited HTTP request: a parsed response body, or a
thrown error with its message. -/
inductive RequestOutcome (α : Type) where
  | response : ApiResponse α → RequestOutcome α
  | thrown : String → RequestOutcome α
deriving DecidableEq, Repr

/-- saveThreshold value: in test mode it updates the threshold locally and
logs SUCCESS without any request; otherwise it posts the value and, on a
failed response or a thrown error, logs an ERROR entry (switching to test
mode on a thrown error), and on a successful response logs SUCCESS. -/
def saveThreshold (s : ClientState) (ts : String) (v : ℚ)
    (o : RequestOutcome Unit) : ClientState :=
  if s.isTestMode then
    addLog { s with confidenceThreshold := v }
      { timestamp := ts
        level := "SUCCESS"
        message := "Test Mode: Confidence threshold updated to " ++ toFixed2 v
        module := some ("settings") }
  else
    match o with
    | RequestOutcome.response resp =>
        if resp.success then
          addLog s
            { timestamp := ts
              level := "SUCCESS"
              message := "Confidence threshold updated to " ++ toFixed2 v
              module := some ("settings") }
        else
          addLog s
            { timestamp := ts
              level := "ERROR"
              message := "Failed to update threshold: "
                ++ resp.error.getD ("Unknown error")
              module := some ("settings") }
    | RequestOutcome.thrown msg =>
        addLog { s with isTestMode := true }
          { timestamp := ts
            level := "ERROR"
            message := "Failed to update threshold: " ++ msg
              ++ ". Switched to test mode."
            module := some ("settings") }

/-- The values the threshold slider can produce: an input of type range
with min 0, max 1, step 0.01 yields the multiples of 0.01 from 0 to 1,
that is k times 0.01 for k between 0 and 100. -/
def sliderThresholdValue (k : ℕ) : ℚ := (k : ℚ) * 0.01

/-- Result of the middleware settings update endpoint. -/
inductive SettingsSaveOutcome where
  | ok : SettingsSaveOutcome
  | invalidArgument : SettingsSaveOutcome
deriving DecidableEq, Repr

/-- Modelled from the spec: the middleware POST /api/settings handler is
not under src/. Per the spec it validates the submitted threshold to lie
in the interval from 0 to 1 and otherwise fails with InvalidArgument,
leaving the stored settings unchanged. Returns the outcome together with
the stored threshold after the call. -/
def postSettingsEndpoint (stored v : ℚ) : SettingsSaveOutcome × ℚ :=
  if 0 ≤ v ∧ v ≤ 1 then (SettingsSaveOutcome.ok, v)
  else (SettingsSaveOutcome.invalidArgument, stored)

/-- A row of the settings table of the database schema: key, value,
description, all TEXT. -/
structure SettingRow where
  key : String
  value : String
  description : String
deriving DecidableEq, Repr

/-- The rows seeded by the INSERT OR IGNORE statement of the schema. -/
def defaultSettings : List SettingRow :=
  [{ key := "camera_device_id", value := "0",
     description := "ID of the camera device to use" },
   { key := "model_path", value := "models/default.pt",
     description := "Path to the inference model" },
   { key := "confidence_threshold", value := "0.5",
     description := "Minimum confidence threshold for detections" }]

/-- Lookup of a seeded setting value by its unique key. -/
def lookupSettingDefault (k : String) : Option String :=
  (defaultSettings.find? (fun r => r.key == k)).map (fun r => r.value)

/-- The numeric value of a decimal digit character. -/
def digit? (c : Char) : Option ℕ :=
  if c.isDigit then some (c.toNat - 48) else none

/-- Reads a nonempty string of decimal digits as a natural number. -/
def natOfDigits? (cs : List Char) : Option ℕ :=
  if cs.isEmpty then none
  else
    cs.foldl
      (fun acc c =>
        match acc, digit? c with
        | some n, some d => some (10 * n + d)
        | _, _ => none)
      (some 0)

/-- Splits a character list at the first dot, if any. -/
def splitAtDot : List Char → List Char × Option (List Char)
  | [] => ([], none)
  | c :: rest =>
      if c = '.' then ([], some rest)
      else
        let p := splitAtDot rest
        (c :: p.1, p.2)

/-- The rational denoted by a plain decimal numeral string such as the
TEXT setting values of the schema: an integer part and an optional
fractional part separated by one dot. -/
def parseDecimal (s : String) : Option ℚ :=
  match splitAtDot s.toList with
  | (w, none) => (natOfDigits? w).map (fun n => (n : ℚ))
  | (w, some f) =>
      match natOfDigits? w, natOfDigits? f with
      | some n, some m => some ((n : ℚ) + (m : ℚ) / (10 : ℚ) ^ f.length)
      | _, _ => none

/-- A client state in test mode with a capture in flight and the slider at
0.9, one of the values the threshold slider can produce. -/
def testModeThresholdState : ClientState :=
  { initialClientState with isTestMode := true, isCapturing := true,
                            confidenceThreshold := 0.9 }

/-- A failed POST /api/capture response body. -/
def failedCaptureResponse : ApiResponse CaptureResult where
  success := false
  data := none
  error := some "Camera not connected"

/-- A failed POST /api/settings response body. -/
def failedSettingsResponse : ApiResponse Unit where
  success := false
  data := none
  error := some "Invalid threshold"

/-- A minimal structured log entry. -/
def sampleLogEntry : LogMessage where
  timestamp := "t"
  level := "INFO"
  message := "m"
  module := none

/-- A successful POST /api/capture response that synchronously carries
the final result payload, the second deployment mode of the spec. -/
def syncCaptureResponse : ApiResponse CaptureResult where
  success := true
  data := some { success := true, original_image := "orig.jpg",
                 processed_image := "proc.jpg", result := "PASS",
                 confidence := 0.82,
                 processed_image_url := some "/api/images/processed/proc.jpg",
                 error := none }
  error := none

/-- A client state with a capture request in flight awaiting its result. -/
def awaitingCaptureState : ClientState :=
  { initialClientState with isCapturing := true, captureStartTime := some 0 }

/-- Auxiliary: a sequence of addLog calls grows the log list by exactly
the number of appended entries. -/
theorem addLogs_logs_length (s : ClientState) (ms : List LogMessage) :
    (addLogs s ms).logs.length = s.logs.length + ms.length := by
  induction ms generalizing s with
  | nil => rfl
  | cons m ms ih =>
      show (addLogs (addLog s m) ms).logs.length = _
      rw [ih]
      simp [addLog]
      omega

/-- Claim C1, counterexample: with the slider at threshold 0.9 the
test-mode simulation still stores the mock result with verdict PASS even
though its confidence 0.85 is below the threshold, so the simulated
verdict does not satisfy PASS iff confidence at least threshold for every
threshold value. -/
theorem simulated_capture_breaks_pass_iff_at_090 :
    (simulateCaptureComplete testModeThresholdState ("t")).captureResult
        = some mockResult ∧
    mockResult.result = "PASS" ∧
    ¬ mockResult.confidence ≥ testModeThresholdState.confidenceThreshold := by
  refine ⟨rfl, rfl, ?_⟩
  norm_num [mockResult, testModeThresholdState]

/-- Claim C1, amended: the test-mode simulation inside handleCapture
always stores the fixed mock result with verdict PASS and confidence
0.85, never consulting the threshold, so the relation verdict PASS iff
confidence at least threshold holds for the simulated capture exactly
when the configured threshold is at most 0.85. -/
theorem simulated_capture_fixed_pass_verdict (s : ClientState) (ts : String) :
    (simulateCaptureComplete s ts).captureResult = some mockResult ∧
    mockResult.result = "PASS" ∧
    (((mockResult.result = "PASS") ↔
        mockResult.confidence ≥ s.confidenceThreshold) ↔
      s.confidenceThreshold ≤ 0.85) := by
  refine ⟨rfl, rfl, ?_⟩
  constructor
  · intro h
    have h2 := h.mp rfl
    norm_num [mockResult] at h2 ⊢
    exact h2
  · intro h
    refine ⟨fun _ => ?_, fun _ => rfl⟩
    norm_num [mockResult] at h ⊢
    exact h

/-- Claim C2: evaluated at the failing input, a GET /api/settings
response of the spec-documented shape holding confidence_threshold 0.7
under a top-level settings key: the success path of loadSettings reads
the data key instead, finds none, and leaves the displayed threshold at
its initial 0.5 rather than setting it to 0.7. -/
theorem loadSettings_ignores_spec_shaped_response :
    (loadSettingsOnResponse initialClientState
        (specSettingsResponse 0.7)).confidenceThreshold = 0.5 ∧
    (specSettingsResponse 0.7).settings
        = some { confidence_threshold := 0.7 } ∧
    (specSettingsResponse 0.7).success = true := by
  exact ⟨rfl, rfl, rfl⟩

/-- Claim C3: the settings endpoint, modelled from the spec, rejects any
submitted threshold outside the interval from 0 to 1 with InvalidArgument
and leaves the stored settings unchanged, and every value the threshold
slider can produce lies within that interval. -/
theorem settings_update_validates_threshold (stored v : ℚ) (k : ℕ)
    (hv : v < 0 ∨ 1 < v) (hk : k ≤ 100) :
    postSettingsEndpoint stored v
        = (SettingsSaveOutcome.invalidArgument, stored) ∧
    0 ≤ sliderThresholdValue k ∧ sliderThresholdValue k ≤ 1 := by
  refine ⟨?_, ?_, ?_⟩
  · have h2 : ¬ (0 ≤ v ∧ v ≤ 1) := by
      rcases hv with h | h
      · exact fun hc => absurd hc.1 (not_le.mpr h)
      · exact fun hc => absurd hc.2 (not_le.mpr h)
    simp [postSettingsEndpoint, h2]
  · simp only [sliderThresholdValue]
    positivity
  · simp only [sliderThresholdValue]
    have hk2 : (k : ℚ) ≤ 100 := by exact_mod_cast hk
    nlinarith

/-- Witness for claim C3: the threshold 1.5 of the spec scenario is
rejected with the stored value 0.5 untouched, and the slider value at
step 90 is within bounds. -/
theorem settings_update_validates_threshold_witness :
    postSettingsEndpoint 0.5 1.5
        = (SettingsSaveOutcome.invalidArgument, 0.5) ∧
    0 ≤ sliderThresholdValue 90 ∧ sliderThresholdValue 90 ≤ 1 :=
  settings_update_validates_threshold 0.5 1.5 90 (Or.inr (by norm_num))
    (by norm_num)

/-- Claim C4: while a capture is already in flight, invoking handleCapture
again performs no action: the state, the log list included, is unchanged
and no request or simulation is started. -/
theorem handleCapture_noop_while_capturing (s : ClientState) (nowMs : ℚ)
    (ts : String) (h : s.isCapturing = true) :
    handleCaptureEnter s nowMs ts = (s, CaptureAction.noAction) := by
  simp [handleCaptureEnter, h]

/-- Witness for claim C4: a second trigger on a state already capturing
is a no-op. -/
theorem handleCapture_noop_while_capturing_witness :
    ({ initialClientState with isCapturing := true } : ClientState).isCapturing
        = true ∧
    handleCaptureEnter { initialClientState with isCapturing := true } 0 ("t")
        = ({ initialClientState with isCapturing := true },
           CaptureAction.noAction) :=
  ⟨rfl, handleCapture_noop_while_capturing _ 0 ("t") rfl⟩

/-- Claim C5, counterexample: the clipboard-copy failure path appends no
log entry at all, it leaves the state unchanged, so not every client
failure path emits a visible log line. -/
theorem clipboard_copy_failure_logs_nothing :
    copyLogsOnFailure initialClientState = initialClientState ∧
    ¬ (copyLogsOnFailure initialClientState).logs.length
        = initialClientState.logs.length + 1 := by
  refine ⟨rfl, ?_⟩
  simp [copyLogsOnFailure, initialClientState]

/-- Claim C5, amended: every listed client failure path except the
clipboard copy appends exactly one log entry to the visible log list:
settings load failure, capture request failure response, capture request
exception, threshold save failure response and threshold save exception
each grow the log list by one, while a clipboard copy failure is reported
only to the browser console and changes nothing. -/
theorem client_failure_paths_append_log (s : ClientState) (ts m : String)
    (v : ℚ) (respC : ApiResponse CaptureResult) (respS : ApiResponse Unit)
    (hC : respC.success = false) (hS : respS.success = false)
    (hT : s.isTestMode = false) :
    (loadSettingsOnError s ts).logs.length = s.logs.length + 1 ∧
    (onCaptureResponse s ts respC).logs.length = s.logs.length + 1 ∧
    (onCaptureException s ts m).logs.length = s.logs.length + 1 ∧
    (saveThreshold s ts v (RequestOutcome.response respS)).logs.length
        = s.logs.length + 1 ∧
    (saveThreshold s ts v (RequestOutcome.thrown m)).logs.length
        = s.logs.length + 1 ∧
    copyLogsOnFailure s = s := by
  refine ⟨?_, ?_, ?_, ?_, ?_, rfl⟩ <;>
    simp [loadSettingsOnError, onCaptureResponse, onCaptureException,
          saveThreshold, addLog, hC, hS, hT]

/-- Witness for claim C5: the five logging failure paths each append one
entry from the initial state, and the clipboard failure path changes
nothing. -/
theorem client_failure_paths_append_log_witness :
    failedCaptureResponse.success = false ∧
    failedSettingsResponse.success = false ∧
    initialClientState.isTestMode = false ∧
    ((loadSettingsOnError initialClientState ("t")).logs.length
        = initialClientState.logs.length + 1 ∧
     (onCaptureResponse initialClientState ("t")
        failedCaptureResponse).logs.length
        = initialClientState.logs.length + 1 ∧
     (onCaptureException initialClientState ("t")
        ("Network Error")).logs.length
        = initialClientState.logs.length + 1 ∧
     (saveThreshold initialClientState ("t") 0.5
        (RequestOutcome.response failedSettingsResponse)).logs.length
        = initialClientState.logs.length + 1 ∧
     (saveThreshold initialClientState ("t") 0.5
        (RequestOutcome.thrown ("Network Error"))).logs.length
        = initialClientState.logs.length + 1 ∧
     copyLogsOnFailure initialClientState = initialClientState) :=
  ⟨rfl, rfl, rfl,
   client_failure_paths_append_log initialClientState ("t") ("Network Error")
     0.5 failedCaptureResponse failedSettingsResponse rfl rfl rfl⟩

/-- Claim C6, counterexample: the client log list kept by addLog admits
no capacity bound at all: for every candidate bound some sequence of
appends exceeds it. -/
theorem client_log_list_unbounded :
    ¬ ∃ C : ℕ, ∀ ms : List LogMessage,
        (addLogs initialClientState ms).logs.length ≤ C := by
  rintro ⟨C, hC⟩
  have h := hC (List.replicate (C + 1) sampleLogEntry)
  rw [addLogs_logs_length] at h
  simp [initialClientState] at h

/-- Claim C6, amended: the addLog helper of the client is a plain
unbounded append with no eviction: after any sequence of appends the log
list length equals the starting length plus the number of appends. The
bounded ring of the spec describes the server-side log aggregator, which
is not under src/. -/
theorem addLogs_length_grows_linearly (s : ClientState)
    (ms : List LogMessage) :
    (addLogs s ms).logs.length = s.logs.length + ms.length :=
  addLogs_logs_length s ms

/-- Claim C7, counterexample: when a successful capture response
synchronously carries the full result payload, the client neither records
the result nor clears the in-progress flag: it stays waiting on the event
stream. -/
theorem sync_capture_result_not_recorded :
    syncCaptureResponse.success = true ∧
    syncCaptureResponse.data.isSome = true ∧
    (onCaptureResponse awaitingCaptureState ("t")
        syncCaptureResponse).captureResult = none ∧
    (onCaptureResponse awaitingCaptureState ("t")
        syncCaptureResponse).isCapturing = true :=
  ⟨rfl, rfl, rfl, rfl⟩

/-- Claim C7, amended: the client supports only the acknowledgment mode
of POST /api/capture: every successful response leaves the client state
unchanged whatever payload it carries, so a synchronously returned result
is ignored and the final result is recorded only by the capture_result
event handler; a failed response clears the flag and logs an error. -/
theorem successful_capture_response_ignored (s : ClientState) (ts : String)
    (resp : ApiResponse CaptureResult) (h : resp.success = true) :
    onCaptureResponse s ts resp = s := by
  simp [onCaptureResponse, h]

/-- Witness for claim C7: a successful response carrying a synchronous
result leaves the initial state untouched. -/
theorem successful_capture_response_ignored_witness :
    syncCaptureResponse.success = true ∧
    onCaptureResponse initialClientState ("t") syncCaptureResponse
        = initialClientState :=
  ⟨rfl, successful_capture_response_ignored initialClientState ("t")
          syncCaptureResponse rfl⟩

/-- Claim C8: the capture_result handler is terminal: it appends exactly
one log entry whose level is SUCCESS precisely when the event reports
success and ERROR otherwise, stores the result, and leaves isCapturing
false. -/
theorem capture_result_terminal_event (s : ClientState) (nowMs : ℚ)
    (ts : String) (r : CaptureResult) :
    (onCaptureResult s nowMs ts r).logs
        = s.logs ++ [captureResultLogEntry ts r] ∧
    ((captureResultLogEntry ts r).level = "SUCCESS" ↔ r.success = true) ∧
    ((captureResultLogEntry ts r).level = "ERROR" ↔ r.success = false) ∧
    (onCaptureResult s nowMs ts r).captureResult = some r ∧
    (onCaptureResult s nowMs ts r).isCapturing = false := by
  cases hc : s.captureStartTime <;> cases hs : r.success <;>
    simp [onCaptureResult, addLog, captureResultLogEntry, hc, hs]

/-- Claim C9: the log_history handler replaces the displayed log list
with exactly the replayed payload, discarding everything accumulated
locally, and changes no other state field. -/
theorem log_history_replaces_log_list (s : ClientState)
    (ls : List LogMessage) :
    (onLogHistory s ls).logs = ls ∧
    (onLogHistory s ls).isConnected = s.isConnected ∧
    (onLogHistory s ls).isCapturing = s.isCapturing ∧
    (onLogHistory s ls).captureResult = s.captureResult ∧
    (onLogHistory s ls).confidenceThreshold = s.confidenceThreshold ∧
    (onLogHistory s ls).backendStatus = s.backendStatus ∧
    (onLogHistory s ls).processingTime = s.processingTime ∧
    (onLogHistory s ls).copySuccess = s.copySuccess ∧
    (onLogHistory s ls).selectedTab = s.selectedTab ∧
    (onLogHistory s ls).isTestMode = s.isTestMode ∧
    (onLogHistory s ls).captureStartTime = s.captureStartTime :=
  ⟨rfl, rfl, rfl, rfl, rfl, rfl, rfl, rfl, rfl, rfl, rfl⟩

/-- Claim C10: the initial confidence threshold of a fresh client is 0.5,
the schema seeds the confidence_threshold setting with the TEXT value
0.5, and that numeral denotes exactly the client initial value. -/
theorem initial_threshold_matches_schema_default :
    initialClientState.confidenceThreshold = 0.5 ∧
    lookupSettingDefault ("confidence_threshold") = some ("0.5") ∧
    (lookupSettingDefault ("confidence_threshold")).bind parseDecimal
      = some initialClientState.confidenceThreshold := by
  refine ⟨rfl, rfl, ?_⟩
  show parseDecimal ("0.5") = some initialClientState.confidenceThreshold
  simp [parseDecimal, splitAtDot, natOfDigits?, digit?, initialClientState]
  norm_num

